import Mathlib

/-!
Verification of the SERA 2026 PowerPoint generator (create_ppt.py).

The script builds a fixed 29-slide deck by appending shapes and text boxes to
blank slides through a handful of layout primitives, then saves the document.
We embed the generator shallowly: a shape is a record of its kind, geometry
in inches (the pptx Inches unit, kept as exact rationals), solid fill color
and text payload; a slide is the list of shapes in order of addition; the deck
is the list of slides built by main.  Every definition below mirrors the
corresponding Python function of the source file.
-/

set_option maxRecDepth 1000000

namespace Ppt

/-- An RGB color, mirroring pptx RGBColor. -/
structure RGBColor where
  r : ℕ
  g : ℕ
  b : ℕ
deriving DecidableEq

def DARK_BLUE : RGBColor := ⟨0x1a, 0x36, 0x5d⟩

def LIGHT_BLUE : RGBColor := ⟨0x31, 0x82, 0xce⟩

def GREEN : RGBColor := ⟨0x48, 0xbb, 0x78⟩

def WHITE : RGBColor := ⟨0xff, 0xff, 0xff⟩

def LIGHT_GRAY : RGBColor := ⟨0xf7, 0xfa, 0xfc⟩

/-- Lengths are kept in inches as exact rationals, so Inches is the identity
embedding of a literal. -/
def Inches (x : ℚ) : ℚ := x

/-- Font sizes in points. -/
def Pt (x : ℚ) : ℚ := x

def SLIDE_WIDTH : ℚ := Inches 13.333

def SLIDE_HEIGHT : ℚ := Inches 7.5

/-- The MSO_SHAPE kinds used by the script, plus textboxes. -/
inductive ShapeKind where
  | rectangle
  | roundedRectangle
  | chevron
  | rightTriangle
  | textbox
deriving DecidableEq

/-- PP_ALIGN values used by the script. -/
inductive Align where
  | left
  | center
  | right
deriving DecidableEq

/-- The single paragraph of a text frame: fields that the script assigns.
Fields the script leaves untouched stay none (pptx inherits them). -/
structure Paragraph where
  text : String
  size : Option ℚ
  bold : Option Bool
  color : Option RGBColor
  fontName : Option String
  alignment : Option Align
deriving DecidableEq

/-- A text frame: word-wrap flag and its first paragraph (the only one the
script ever writes). -/
structure TextFrame where
  wordWrap : Option Bool
  para : Paragraph
deriving DecidableEq

/-- A shape on a slide: kind, bounding box in inches, solid fill (none for
textboxes, which the script never fills), and text frame (none for the
autoshapes, whose text frames the script never writes). -/
structure Shape where
  kind : ShapeKind
  left : ℚ
  top : ℚ
  width : ℚ
  height : ℚ
  fill : Option RGBColor
  tf : Option TextFrame
deriving DecidableEq

/-- A slide is its list of shapes in order of addition. -/
abbrev Slide := List Shape

/-- The empty paragraph of a freshly created textbox. -/
def emptyParagraph : Paragraph :=
  { text := "", size := none, bold := none, color := none,
    fontName := none, alignment := none }

/-- The result of slide.shapes.add_shape followed by fill.solid(),
fill.fore_color.rgb = c and line.fill.background(), the pattern used for
every autoshape in the script. -/
def solidShape (kind : ShapeKind) (left top width height : ℚ) (c : RGBColor) : Shape :=
  { kind := kind, left := left, top := top, width := width, height := height,
    fill := some c, tf := none }

/-- A fresh textbox as returned by slide.shapes.add_textbox. -/
def new_textbox (left top width height : ℚ) : Shape :=
  { kind := .textbox, left := left, top := top, width := width, height := height,
    fill := none, tf := some { wordWrap := none, para := emptyParagraph } }

/-- add_top_border: green bar on the right, dark blue bar below. -/
def add_top_border (slide : Slide) : Slide :=
  let green_bar := solidShape .rectangle (SLIDE_WIDTH - Inches 3.5) (Inches 0)
    (Inches 3.5) (Inches 0.15) GREEN
  let blue_bar := solidShape .rectangle (Inches 0) (Inches 0.2)
    (SLIDE_WIDTH - Inches 1) (Inches 0.08) DARK_BLUE
  slide ++ [green_bar, blue_bar]

/-- The Python format expression for the page number with format spec 02d,
applied to a natural number: pad the decimal form with zeros to width two. -/
def format02 (page_num : ℕ) : String :=
  if page_num < 10 then "0" ++ toString page_num else toString page_num

/-- add_bottom_border: green line, dark blue line, page-number textbox. -/
def add_bottom_border (slide : Slide) (page_num : ℕ) : Slide :=
  let green_line := solidShape .rectangle (Inches 0.8) (SLIDE_HEIGHT - Inches 0.55)
    (SLIDE_WIDTH - Inches 1.6) (Inches 0.05) GREEN
  let blue_line := solidShape .rectangle (Inches 0.8) (SLIDE_HEIGHT - Inches 0.4)
    (SLIDE_WIDTH - Inches 1.6) (Inches 0.05) DARK_BLUE
  let page_box : Shape :=
    { new_textbox (Inches 0.8) (SLIDE_HEIGHT - Inches 0.5) (Inches 0.6) (Inches 0.4) with
      tf := some { wordWrap := some false,
                   para := { text := format02 page_num, size := some (Pt 18),
                             bold := some true, color := some LIGHT_BLUE,
                             fontName := none, alignment := none } } }
  slide ++ [green_line, blue_line, page_box]

/-- set_rtl_arabic_text: writes the given strings and styling into the text
frame of the shape it is handed; the align argument is the same
right / center / left string the source compares against. -/
def set_rtl_arabic_text (shape : Shape) (text : String) (font_size : ℚ)
    (bold : Bool) (color : RGBColor) (align : String) : Shape :=
  let base := match shape.tf with
    | some tf => tf
    | none => { wordWrap := none, para := emptyParagraph }
  let para := { base.para with
    text := text, size := some (Pt font_size), bold := some bold,
    color := some color, fontName := some "Arial" }
  let para := if align = "right" then { para with alignment := some Align.right }
    else if align = "center" then { para with alignment := some Align.center }
    else if align = "left" then { para with alignment := some Align.left }
    else para
  { shape with tf := some { base with wordWrap := some true, para := para } }

/-- add_info_card: rounded card plus centered title and value textboxes. -/
def add_info_card (slide : Slide) (left top width height : ℚ)
    (title value : String) (bg_color : RGBColor) : Slide :=
  let card := solidShape .roundedRectangle left top width height bg_color
  let title_box : Shape :=
    { new_textbox (left + Inches 0.1) (top + Inches 0.4) (width - Inches 0.2) (Inches 0.4) with
      tf := some { wordWrap := none,
                   para := { text := title, size := some (Pt 12), bold := none,
                             color := some WHITE, fontName := none,
                             alignment := some Align.center } } }
  let value_box : Shape :=
    { new_textbox (left + Inches 0.1) (top + Inches 0.7) (width - Inches 0.2) (Inches 0.5) with
      tf := some { wordWrap := none,
                   para := { text := value, size := some (Pt 16), bold := some true,
                             color := some WHITE, fontName := none,
                             alignment := some Align.center } } }
  slide ++ [card, title_box, value_box]

/-- add_detail_box: rounded background, accent border on the right edge,
right-aligned title and content textboxes. -/
def add_detail_box (slide : Slide) (left top width height : ℚ)
    (title content : String) (bg_color border_color : RGBColor) : Slide :=
  let box := solidShape .roundedRectangle left top width height bg_color
  let border := solidShape .rectangle (left + width - Inches 0.08) top
    (Inches 0.08) height border_color
  let title_box : Shape :=
    { new_textbox (left + Inches 0.2) (top + Inches 0.1) (width - Inches 0.4) (Inches 0.3) with
      tf := some { wordWrap := none,
                   para := { text := title, size := some (Pt 14), bold := some true,
                             color := some DARK_BLUE, fontName := none,
                             alignment := some Align.right } } }
  let content_box : Shape :=
    { new_textbox (left + Inches 0.2) (top + Inches 0.35) (width - Inches 0.4) (height - Inches 0.45) with
      tf := some { wordWrap := some true,
                   para := { text := content, size := some (Pt 12), bold := none,
                             color := some ⟨0x4a, 0x55, 0x68⟩, fontName := none,
                             alignment := some Align.right } } }
  slide ++ [box, border, title_box, content_box]

/-- add_event_card: rounded card with right-aligned title and content. -/
def add_event_card (slide : Slide) (left top width height : ℚ)
    (title content : String) (bg_color : RGBColor) : Slide :=
  let card := solidShape .roundedRectangle left top width height bg_color
  let title_box : Shape :=
    { new_textbox (left + Inches 0.2) (top + Inches 0.15) (width - Inches 0.4) (Inches 0.5) with
      tf := some { wordWrap := none,
                   para := { text := title, size := some (Pt 18), bold := some true,
                             color := some WHITE, fontName := none,
                             alignment := some Align.right } } }
  let content_box : Shape :=
    { new_textbox (left + Inches 0.2) (top + Inches 0.6) (width - Inches 0.4) (height - Inches 0.8) with
      tf := some { wordWrap := some true,
                   para := { text := content, size := some (Pt 12), bold := none,
                             color := some WHITE, fontName := none,
                             alignment := some Align.right } } }
  slide ++ [card, title_box, content_box]

/-- create_title_slide: cover slide with the blue half background, chevron
overlay, green corner triangle and three textboxes. -/
def create_title_slide : Slide :=
  let slide : Slide := []
  let blue_bg := solidShape .rectangle (SLIDE_WIDTH / 2) (Inches 0)
    (SLIDE_WIDTH / 2) SLIDE_HEIGHT DARK_BLUE
  let arrow := solidShape .chevron (SLIDE_WIDTH / 2 - Inches 1) (Inches 0)
    (Inches 2) SLIDE_HEIGHT ⟨0x2c, 0x52, 0x82⟩
  let green_corner := solidShape .rightTriangle (Inches 0) (SLIDE_HEIGHT - Inches 1.5)
    (Inches 1.5) (Inches 1.5) GREEN
  let title_box : Shape :=
    { new_textbox (Inches 0.5) (Inches 2) (Inches 5.5) (Inches 1.2) with
      tf := some { wordWrap := none,
                   para := { text := "SERA 2026", size := some (Pt 60), bold := some true,
                             color := some DARK_BLUE, fontName := none,
                             alignment := some Align.right } } }
  let sub_box : Shape :=
    { new_textbox (Inches 0.5) (Inches 3.2) (Inches 5.5) (Inches 0.6) with
      tf := some { wordWrap := none,
                   para := { text := "هيئة تنظيم الكهرباء", size := some (Pt 24), bold := none,
                             color := some LIGHT_BLUE, fontName := none,
                             alignment := some Align.right } } }
  let prop_box : Shape :=
    { new_textbox (Inches 0.5) (Inches 4) (Inches 5.5) (Inches 0.8) with
      tf := some { wordWrap := none,
                   para := { text := "العرض الفني", size := some (Pt 36), bold := some true,
                             color := some DARK_BLUE, fontName := none,
                             alignment := some Align.right } } }
  slide ++ [blue_bg, arrow, green_corner, title_box, sub_box, prop_box]

/-- The table-of-contents entries of create_toc_slide. -/
def toc_items : List (String × String) :=
  [("نظرة عامة على البرنامج", "03"),
   ("فعاليات الربع الأول (Q1)", "05"),
   ("فعاليات الربع الثاني (Q2)", "10"),
   ("فعاليات الربع الثالث (Q3)", "14"),
   ("فعاليات الربع الرابع (Q4)", "18"),
   ("الفعاليات الرياضية", "25"),
   ("ملخص الميزانية", "27")]

/-- The enumerated loop body of create_toc_slide: separator line (green on
even indices), entry text, page-number textbox; y advances by 0.7 inches. -/
def toc_loop (slide : Slide) (i : ℕ) (y : ℚ) : List (String × String) → Slide
  | [] => slide
  | (text, page) :: rest =>
    let line_color := if i % 2 = 0 then GREEN else DARK_BLUE
    let line := solidShape .rectangle (Inches 1) (y + Inches 0.5) (Inches 11) (Inches 0.04) line_color
    let text_box :=
      set_rtl_arabic_text (new_textbox (Inches 2) y (Inches 9) (Inches 0.5)) text 20 true DARK_BLUE "right"
    let page_box : Shape :=
      { new_textbox (Inches 1) y (Inches 0.8) (Inches 0.5) with
        tf := some { wordWrap := none,
                     para := { text := page, size := some (Pt 20), bold := some true,
                               color := some LIGHT_BLUE, fontName := none,
                               alignment := some Align.left } } }
    toc_loop (slide ++ [line, text_box, page_box]) (i + 1) (y + Inches 0.7) rest

/-- create_toc_slide. -/
def create_toc_slide : Slide :=
  let slide : Slide := []
  let slide := add_top_border slide
  let slide := add_bottom_border slide 2
  let title_box := new_textbox (Inches 0.8) (Inches 0.6) (Inches 11.5) (Inches 0.8)
  let slide := slide ++ [set_rtl_arabic_text title_box "المحتوى" 44 true DARK_BLUE "right"]
  toc_loop slide 0 (Inches 1.6) toc_items

/-- The info cards of create_overview_slide. -/
def overview_cards : List (String × String) :=
  [("إجمالي الفعاليات", "44 فعالية"),
   ("فعاليات Q1", "9 فعاليات"),
   ("فعاليات Q2", "8 فعاليات"),
   ("فعاليات Q3", "8 فعاليات"),
   ("فعاليات Q4", "16 فعالية"),
   ("الفعاليات الرياضية", "3 فعاليات")]

/-- The enumerated 3-column grid loop of create_overview_slide, with
card width 3.5, height 1.1, start (0.8, 1.5), gaps 0.3 and 0.2. -/
def overview_cards_loop (slide : Slide) (i : ℕ) : List (String × String) → Slide
  | [] => slide
  | (title, value) :: rest =>
    let col := i % 3
    let row := i / 3
    let x := Inches 0.8 + (col : ℚ) * (Inches 3.5 + Inches 0.3)
    let card_y := Inches 1.5 + (row : ℚ) * (Inches 1.1 + Inches 0.2)
    overview_cards_loop
      (add_info_card slide x card_y (Inches 3.5) (Inches 1.1) title value DARK_BLUE) (i + 1) rest

/-- create_overview_slide. -/
def create_overview_slide : Slide :=
  let slide : Slide := []
  let slide := add_top_border slide
  let slide := add_bottom_border slide 3
  let title_box := new_textbox (Inches 0.8) (Inches 0.6) (Inches 11.5) (Inches 0.7)
  let slide := slide ++ [set_rtl_arabic_text title_box "نظرة عامة على البرنامج" 32 true DARK_BLUE "right"]
  let slide := overview_cards_loop slide 0 overview_cards
  let slide := add_detail_box slide (Inches 0.8) (Inches 4) (Inches 11.5) (Inches 0.7)
    "الموقع" "جميع الفعاليات في مدينة الرياض - المملكة العربية السعودية" LIGHT_GRAY DARK_BLUE
  add_detail_box slide (Inches 0.8) (Inches 4.8) (Inches 11.5) (Inches 0.7)
    "عمولة الوكالة" "15% على جميع الفعاليات" LIGHT_GRAY DARK_BLUE

/-- The category cards of create_categories_slide. -/
def categories : List (String × String) :=
  [("المؤتمرات والاحتفالات", "الاجتماع السنوي، احتفالات الأعياد، اليوم الوطني، حفل نهاية العام"),
   ("الاحتفالات الوطنية", "يوم التأسيس، يوم العلم السعودي، اليوم الوطني (96)"),
   ("التوعية الصحية", "التبرع بالدم، مكافحة التدخين، الصحة النفسية، السكري"),
   ("التطوير المهني", "يوم الإبداع والابتكار، برنامج تزوّد، يوم الجودة"),
   ("المسؤولية الاجتماعية", "حملة إحسان، كسوة فرح، يوم التطوع"),
   ("الفعاليات العائلية", "صيف سيرا، شتوية سيرا، يوم الطفل العالمي")]

/-- The enumerated 3-column grid loop of create_categories_slide: card of
width 3.7 and height 1.5 with a centered title and content textbox, start
(0.8, 1.5), gaps 0.2 and 0.2. -/
def categories_loop (slide : Slide) (i : ℕ) : List (String × String) → Slide
  | [] => slide
  | (title, content) :: rest =>
    let col := i % 3
    let row := i / 3
    let x := Inches 0.8 + (col : ℚ) * (Inches 3.7 + Inches 0.2)
    let card_y := Inches 1.5 + (row : ℚ) * (Inches 1.5 + Inches 0.2)
    let card := solidShape .roundedRectangle x card_y (Inches 3.7) (Inches 1.5) DARK_BLUE
    let title_txt : Shape :=
      { new_textbox (x + Inches 0.1) (card_y + Inches 0.1) (Inches 3.7 - Inches 0.2) (Inches 0.4) with
        tf := some { wordWrap := none,
                     para := { text := title, size := some (Pt 16), bold := some true,
                               color := some ⟨0x68, 0xd3, 0x91⟩, fontName := none,
                               alignment := some Align.center } } }
    let content_txt : Shape :=
      { new_textbox (x + Inches 0.1) (card_y + Inches 0.5) (Inches 3.7 - Inches 0.2) (Inches 1.5 - Inches 0.6) with
        tf := some { wordWrap := some true,
                     para := { text := content, size := some (Pt 12), bold := none,
                               color := some WHITE, fontName := none,
                               alignment := some Align.center } } }
    categories_loop (slide ++ [card, title_txt, content_txt]) (i + 1) rest

/-- create_categories_slide. -/
def create_categories_slide : Slide :=
  let slide : Slide := []
  let slide := add_top_border slide
  let slide := add_bottom_border slide 4
  let title_box := new_textbox (Inches 0.8) (Inches 0.6) (Inches 11.5) (Inches 0.7)
  let slide := slide ++ [set_rtl_arabic_text title_box "فئات الفعاليات" 32 true DARK_BLUE "right"]
  categories_loop slide 0 categories

/-- create_section_divider. -/
def create_section_divider (section_title section_subtitle subtitle_detail : String)
    (page_num : ℕ) : Slide :=
  let slide : Slide := []
  let slide := add_top_border slide
  let slide := add_bottom_border slide page_num
  let sub_box : Shape :=
    { new_textbox (Inches 0.8) (Inches 2.5) (Inches 11.5) (Inches 0.6) with
      tf := some { wordWrap := none,
                   para := { text := section_subtitle, size := some (Pt 26), bold := none,
                             color := some LIGHT_BLUE, fontName := none,
                             alignment := some Align.center } } }
  let title_box : Shape :=
    { new_textbox (Inches 0.8) (Inches 3.2) (Inches 11.5) (Inches 1) with
      tf := some { wordWrap := none,
                   para := { text := section_title, size := some (Pt 50), bold := some true,
                             color := some DARK_BLUE, fontName := none,
                             alignment := some Align.center } } }
  let detail_box : Shape :=
    { new_textbox (Inches 0.8) (Inches 4.3) (Inches 11.5) (Inches 0.5) with
      tf := some { wordWrap := none,
                   para := { text := subtitle_detail, size := some (Pt 18), bold := none,
                             color := some ⟨0x71, 0x80, 0x96⟩, fontName := none,
                             alignment := some Align.center } } }
  slide ++ [sub_box, title_box, detail_box]

/-- The enumerated info-card row of create_event_detail_slide: three cards of
width 3.5 and height 1 at y = 1.5, stepping x by 3.8 per index. -/
def event_detail_cards_loop (slide : Slide) (i : ℕ) : List (String × String) → Slide
  | [] => slide
  | (card_title, value) :: rest =>
    let x := Inches 0.8 + (i : ℚ) * (Inches 3.5 + Inches 0.3)
    event_detail_cards_loop
      (add_info_card slide x (Inches 1.5) (Inches 3.5) (Inches 1) card_title value DARK_BLUE)
      (i + 1) rest

/-- The detail-box column of create_event_detail_slide: boxes of height 0.8
at x = 0.8 and width 11.5, y stepping by 0.9. -/
def event_detail_boxes_loop (slide : Slide) (y : ℚ) : List (String × String) → Slide
  | [] => slide
  | (title_txt, content) :: rest =>
    event_detail_boxes_loop
      (add_detail_box slide (Inches 0.8) y (Inches 11.5) (Inches 0.8) title_txt content
        LIGHT_GRAY DARK_BLUE)
      (y + Inches 0.9) rest

/-- create_event_detail_slide. -/
def create_event_detail_slide (title date attendance level venue stage av services : String)
    (page_num : ℕ) : Slide :=
  let slide : Slide := []
  let slide := add_top_border slide
  let slide := add_bottom_border slide page_num
  let title_box := new_textbox (Inches 0.8) (Inches 0.6) (Inches 11.5) (Inches 0.7)
  let slide := slide ++ [set_rtl_arabic_text title_box title 32 true DARK_BLUE "right"]
  let slide := event_detail_cards_loop slide 0
    [("التاريخ", date), ("الحضور المتوقع", attendance), ("المستوى", level)]
  event_detail_boxes_loop slide (Inches 2.7)
    [("المكان المقترح", venue), ("المسرح والديكور", stage),
     ("المتطلبات السمعية والبصرية", av), ("الخدمات الرئيسية", services)]

/-- The five-color palette of create_two_event_slide. -/
def two_event_colors : List RGBColor :=
  [DARK_BLUE, GREEN, ⟨0xb8, 0x32, 0x80⟩, ⟨0xc0, 0x56, 0x21⟩, ⟨0x6b, 0x46, 0xc1⟩]

/-- The loop of create_two_event_slide: one event card per tuple (no
truncation), height 2.3 at x = 0.8 and width 11.5, color taken from the
palette at the color index of the tuple modulo the palette length, y
stepping by 2.3 + 0.2. -/
def two_event_loop (slide : Slide) (y : ℚ) : List (String × String × ℕ) → Slide
  | [] => slide
  | (event_title, event_content, color_idx) :: rest =>
    let color := two_event_colors.getD (color_idx % two_event_colors.length) DARK_BLUE
    two_event_loop
      (add_event_card slide (Inches 0.8) y (Inches 11.5) (Inches 2.3) event_title event_content color)
      (y + Inches 2.3 + Inches 0.2) rest

/-- create_two_event_slide. -/
def create_two_event_slide (page_title : String) (events : List (String × String × ℕ))
    (page_num : ℕ) : Slide :=
  let slide : Slide := []
  let slide := add_top_border slide
  let slide := add_bottom_border slide page_num
  let title_box := new_textbox (Inches 0.8) (Inches 0.6) (Inches 11.5) (Inches 0.7)
  let slide := slide ++ [set_rtl_arabic_text title_box page_title 32 true DARK_BLUE "right"]
  two_event_loop slide (Inches 1.5) events

/-- Column position of the card at index i in create_four_event_slide:
col = i mod 2, x = 0.8 + col * (5.6 + 0.2). -/
def four_event_x (i : ℕ) : ℚ := Inches 0.8 + ((i % 2 : ℕ) : ℚ) * (Inches 5.6 + Inches 0.2)

/-- Row position of the card at index i in create_four_event_slide:
row = i div 2, y = 1.5 + row * (1.4 + 0.2). -/
def four_event_y (i : ℕ) : ℚ := Inches 1.5 + ((i / 2 : ℕ) : ℚ) * (Inches 1.4 + Inches 0.2)

/-- The card rectangle at index i of create_four_event_slide. -/
def four_event_card (i : ℕ) : Shape :=
  solidShape .roundedRectangle (four_event_x i) (four_event_y i) (Inches 5.6) (Inches 1.4) DARK_BLUE

/-- The enumerated loop of create_four_event_slide over the (already
truncated) event list: card, right-aligned title and content textboxes. -/
def four_event_loop (slide : Slide) (i : ℕ) : List (String × String) → Slide
  | [] => slide
  | (event_title, event_content) :: rest =>
    let x := four_event_x i
    let y := four_event_y i
    let card := four_event_card i
    let title_txt : Shape :=
      { new_textbox (x + Inches 0.15) (y + Inches 0.1) (Inches 5.6 - Inches 0.3) (Inches 0.4) with
        tf := some { wordWrap := none,
                     para := { text := event_title, size := some (Pt 14), bold := some true,
                               color := some ⟨0x68, 0xd3, 0x91⟩, fontName := none,
                               alignment := some Align.right } } }
    let content_txt : Shape :=
      { new_textbox (x + Inches 0.15) (y + Inches 0.5) (Inches 5.6 - Inches 0.3) (Inches 1.4 - Inches 0.6) with
        tf := some { wordWrap := some true,
                     para := { text := event_content, size := some (Pt 11), bold := none,
                               color := some WHITE, fontName := none,
                               alignment := some Align.right } } }
    four_event_loop (slide ++ [card, title_txt, content_txt]) (i + 1) rest

/-- create_four_event_slide: loops over events sliced to the first four, and
optionally appends an extra detail box at the bottom. -/
def create_four_event_slide (page_title : String) (events : List (String × String))
    (page_num : ℕ) (extra_detail : Option (String × String)) : Slide :=
  let slide : Slide := []
  let slide := add_top_border slide
  let slide := add_bottom_border slide page_num
  let title_box := new_textbox (Inches 0.8) (Inches 0.6) (Inches 11.5) (Inches 0.7)
  let slide := slide ++ [set_rtl_arabic_text title_box page_title 32 true DARK_BLUE "right"]
  let slide := four_event_loop slide 0 (events.take 4)
  match extra_detail with
  | some extra =>
      add_detail_box slide (Inches 0.8) (Inches 4.5) (Inches 11.5) (Inches 0.8)
        extra.1 extra.2 LIGHT_GRAY DARK_BLUE
  | none => slide

/-- The three-color palette of create_three_event_slide. -/
def three_event_colors : List RGBColor := [DARK_BLUE, ⟨0xb8, 0x32, 0x80⟩, GREEN]

/-- The loop of create_three_event_slide: one event card per tuple (no
truncation), height 1.5 at x = 0.8 and width 11.5, color from the three
color palette at the color index of the tuple modulo the palette length, y
stepping by 1.5 + 0.15. -/
def three_event_loop (slide : Slide) (y : ℚ) : List (String × String × ℕ) → Slide
  | [] => slide
  | (event_title, event_content, color_idx) :: rest =>
    let color := three_event_colors.getD (color_idx % three_event_colors.length) DARK_BLUE
    three_event_loop
      (add_event_card slide (Inches 0.8) y (Inches 11.5) (Inches 1.5) event_title event_content color)
      (y + Inches 1.5 + Inches 0.15) rest

/-- create_three_event_slide. -/
def create_three_event_slide (page_title : String) (events : List (String × String × ℕ))
    (page_num : ℕ) : Slide :=
  let slide : Slide := []
  let slide := add_top_border slide
  let slide := add_bottom_border slide page_num
  let title_box := new_textbox (Inches 0.8) (Inches 0.6) (Inches 11.5) (Inches 0.7)
  let slide := slide ++ [set_rtl_arabic_text title_box page_title 32 true DARK_BLUE "right"]
  three_event_loop slide (Inches 1.5) events

/-- The sports events and their explicitly chosen card colors. -/
def sports_events : List (String × String × RGBColor) :=
  [("S1. بطولة كرة القدم",
    "الموعد: يحدد لاحقاً (3 عطلات نهاية أسبوع) | الفئة: مسابقة رياضية | الحضور: 150 شخص | المستوى: كبير",
    GREEN),
   ("S2. بطولة البادل",
    "الموعد: يحدد لاحقاً (عطلتي نهاية أسبوع) | الفئة: مسابقة رياضية | الحضور: 20 شخص | المستوى: متوسط",
    LIGHT_BLUE),
   ("S3. تحدي المشي + جمعة سيرا",
    "الموعد: ربع سنوي + سنوي | الفئة: رياضة وعافية | الحضور: 200 شخص | المستوى: متوسط",
    ⟨0xed, 0x89, 0x36⟩)]

/-- The loop of create_sports_slide: event cards of height 1.5 at x = 0.8
and width 11.5, y stepping by 1.5 + 0.15. -/
def sports_loop (slide : Slide) (y : ℚ) : List (String × String × RGBColor) → Slide
  | [] => slide
  | (title, content, color) :: rest =>
    sports_loop
      (add_event_card slide (Inches 0.8) y (Inches 11.5) (Inches 1.5) title content color)
      (y + Inches 1.5 + Inches 0.15) rest

/-- create_sports_slide. -/
def create_sports_slide : Slide :=
  let slide : Slide := []
  let slide := add_top_border slide
  let slide := add_bottom_border slide 26
  let title_box := new_textbox (Inches 0.8) (Inches 0.6) (Inches 11.5) (Inches 0.7)
  let slide := slide ++ [set_rtl_arabic_text title_box "الفعاليات الرياضية" 32 true DARK_BLUE "right"]
  sports_loop slide (Inches 1.5) sports_events

/-- The info cards of create_budget_slide. -/
def budget_cards : List (String × String) :=
  [("فعاليات Q1", "9 فعاليات"),
   ("فعاليات Q2", "8 فعاليات"),
   ("فعاليات Q3", "8 فعاليات"),
   ("فعاليات Q4", "16 فعالية"),
   ("الفعاليات الرياضية", "3 فعاليات"),
   ("إجمالي الفعاليات", "44 فعالية")]

/-- The enumerated 3-column grid loop of create_budget_slide; the card at
index 5 is green, the others dark blue. -/
def budget_cards_loop (slide : Slide) (i : ℕ) : List (String × String) → Slide
  | [] => slide
  | (title, value) :: rest =>
    let col := i % 3
    let row := i / 3
    let x := Inches 0.8 + (col : ℚ) * (Inches 3.5 + Inches 0.3)
    let card_y := Inches 1.5 + (row : ℚ) * (Inches 1.1 + Inches 0.2)
    let bg_color := if i = 5 then GREEN else DARK_BLUE
    budget_cards_loop
      (add_info_card slide x card_y (Inches 3.5) (Inches 1.1) title value bg_color) (i + 1) rest

/-- create_budget_slide. -/
def create_budget_slide : Slide :=
  let slide : Slide := []
  let slide := add_top_border slide
  let slide := add_bottom_border slide 28
  let title_box := new_textbox (Inches 0.8) (Inches 0.6) (Inches 11.5) (Inches 0.7)
  let slide := slide ++ [set_rtl_arabic_text title_box "ملخص الميزانية" 32 true DARK_BLUE "right"]
  let slide := budget_cards_loop slide 0 budget_cards
  let slide := add_detail_box slide (Inches 0.8) (Inches 4) (Inches 11.5) (Inches 0.7)
    "الإجمالي قبل الضريبة (ريال سعودي)" "[يُحدد لاحقاً]" LIGHT_GRAY DARK_BLUE
  let slide := add_detail_box slide (Inches 0.8) (Inches 4.8) (Inches 11.5) (Inches 0.7)
    "ضريبة القيمة المضافة (15%)" "[يُحدد لاحقاً]" LIGHT_GRAY DARK_BLUE
  let total_box := solidShape .roundedRectangle (Inches 0.8) (Inches 5.6) (Inches 11.5) (Inches 0.7) DARK_BLUE
  let border := solidShape .rectangle (Inches 12.22) (Inches 5.6) (Inches 0.08) (Inches 0.7) GREEN
  let title_txt : Shape :=
    { new_textbox (Inches 1) (Inches 5.65) (Inches 11) (Inches 0.3) with
      tf := some { wordWrap := none,
                   para := { text := "★ الإجمالي الكلي شامل الضريبة", size := some (Pt 14),
                             bold := some true, color := some WHITE, fontName := none,
                             alignment := some Align.right } } }
  let value_txt : Shape :=
    { new_textbox (Inches 1) (Inches 5.95) (Inches 11) (Inches 0.3) with
      tf := some { wordWrap := none,
                   para := { text := "[يُحدد لاحقاً]", size := some (Pt 18),
                             bold := some true, color := some ⟨0x68, 0xd3, 0x91⟩, fontName := none,
                             alignment := some Align.right } } }
  slide ++ [total_box, border, title_txt, value_txt]

/-- create_thank_you_slide: same art as the title slide with a thanks
message. -/
def create_thank_you_slide : Slide :=
  let slide : Slide := []
  let blue_bg := solidShape .rectangle (SLIDE_WIDTH / 2) (Inches 0)
    (SLIDE_WIDTH / 2) SLIDE_HEIGHT DARK_BLUE
  let arrow := solidShape .chevron (SLIDE_WIDTH / 2 - Inches 1) (Inches 0)
    (Inches 2) SLIDE_HEIGHT ⟨0x2c, 0x52, 0x82⟩
  let green_corner := solidShape .rightTriangle (Inches 0) (SLIDE_HEIGHT - Inches 1.5)
    (Inches 1.5) (Inches 1.5) GREEN
  let title_box : Shape :=
    { new_textbox (Inches 0.5) (Inches 2) (Inches 5.5) (Inches 1.2) with
      tf := some { wordWrap := none,
                   para := { text := "SERA 2026", size := some (Pt 60), bold := some true,
                             color := some DARK_BLUE, fontName := none,
                             alignment := some Align.right } } }
  let sub_box : Shape :=
    { new_textbox (Inches 0.5) (Inches 3.2) (Inches 5.5) (Inches 0.6) with
      tf := some { wordWrap := none,
                   para := { text := "هيئة تنظيم الكهرباء", size := some (Pt 24), bold := none,
                             color := some LIGHT_BLUE, fontName := none,
                             alignment := some Align.right } } }
  let thanks_box : Shape :=
    { new_textbox (Inches 0.5) (Inches 4) (Inches 5.5) (Inches 0.8) with
      tf := some { wordWrap := none,
                   para := { text := "شكراً لكم", size := some (Pt 36), bold := some true,
                             color := some DARK_BLUE, fontName := none,
                             alignment := some Align.right } } }
  slide ++ [blue_bg, arrow, green_corner, title_box, sub_box, thanks_box]

/-- main: the deck built by the fixed call sequence, slide 1 through
slide 29, with exactly the literal content of the source. -/
def main_deck : List Slide :=
  [create_title_slide,
   create_toc_slide,
   create_overview_slide,
   create_categories_slide,
   create_section_divider "فعاليات الربع الأول" "القسم الأول" "9 فعاليات | يناير - مارس 2026" 5,
   create_event_detail_slide
     "1. الاجتماع السنوي 2026"
     "3 فبراير" "300 شخص" "كبير (Major)"
     "قاعة فندق 5 نجوم (ريتز كارلتون / فور سيزونز)"
     "مسرح 8م×5م، خلفية تحمل العلامة التجارية، منصة مع شعار SERA"
     "شاشة LED P2.5 (5م×3م)، نظام صوت Line-array، 6 ميكروفونات لاسلكية، بث مباشر"
     "ترجمة فورية عربي/إنجليزي، مقدم برامج محترف، نظام تسجيل QR، تصوير (2)، فيديو (2)، مطبوعات"
     6,
   create_two_event_slide "فعاليات الربع الأول"
     [("2. يوم التأسيس - 22 فبراير",
       "المكان: مقر SERA - داخلي | الحضور: 300 شخص | الفئة: احتفال وطني\nالديكور: عروض تراثية، ثيم يوم التأسيس الوطني\nالخدمات: عروض تراثية، هدايا تذكارية، تغطية مباشرة على وسائل التواصل الاجتماعي", 0),
      ("3. يوم تقدير الموظف - 2 مارس",
       "المكان: فندق 5 نجوم - حفل عشاء | الحضور: 300 شخص | الفئة: حفل تكريم\nالديكور: مسرح للحفل، ديكور فاخر، إضاءة علوية، منصات الجوائز\nالخدمات: 12 كأس كريستال، فرقة موسيقية حية (2.5 ساعة)، صناديق هدايا، مقدم برامج محترف", 1)]
     7,
   create_two_event_slide "فعاليات الربع الأول"
     [("4. اليوم العالمي للمرأة - 8 مارس",
       "المكان: مكان أنيق أو قسم السيدات في فندق | الحضور: 150 شخص\nالديكور: ديكور أنثوي أنيق، تنسيقات زهور فاخرة\nالخدمات: متحدثة رئيسية + جلسة نقاشية (3 متحدثات)، ركن تصوير، حقائب هدايا، مصورة", 2),
      ("5. يوم العلم السعودي - 11 مارس",
       "المكان: مقر SERA - البهو والمنطقة الخارجية | الحضور: 300 شخص\nالديكور: علم سعودي كبير (5م+)، ثيم أخضر وأبيض وطني\nالخدمات: مراسم رفع العلم، هدايا تذكارية، تغطية مباشرة على وسائل التواصل", 1)]
     8,
   create_two_event_slide "فعاليات الربع الأول"
     [("6. إفطار رمضان - منتصف مارس",
       "المكان: خيمة رمضانية في فندق 5 نجوم | الحضور: 300 شخص\nالديكور: ديكور رمضاني تقليدي: فوانيس، أهلّة، مجلس VIP\nالخدمات: بوفيه إفطار فاخر، عازف عود، صناديق هدايا رمضانية، ترتيب مصلى", 0),
      ("7. يوم الأم - 21 مارس",
       "المكان: قسم خاص في مطعم أنيق | الحضور: 130 شخص\nالديكور: ثيم الزهور، منطقة تصوير\nالخدمات: هدايا زهور، هدايا خاصة للأمهات، ترفيه، تصوير فوتوغرافي", 2)]
     9,
   create_two_event_slide "فعاليات الربع الأول"
     [("8. المبادرة الخضراء السعودية - 27 مارس",
       "المكان: مقر SERA - منطقة المعارض | الحضور: 250 شخص\nالديكور: أكشاك بثيم الاستدامة الخضراء، عروض بيئية\nالخدمات: خبير بيئي، معارض خضراء، هدايا صديقة للبيئة، عروض استدامة", 1),
      ("9. حملة إحسان الخيرية - مارس",
       "المكان: مقر SERA - منطقة البهو | الحضور: 200 شخص\nالديكور: عروض منصة إحسان، محطات التبرع\nالخدمات: كشك توعية بالحملة، محطات تبرع QR، عرض قصص التأثير", 0)]
     10,
   create_section_divider "فعاليات الربع الثاني" "القسم الثاني" "8 فعاليات | أبريل - يونيو 2026" 11,
   create_event_detail_slide
     "10. احتفال عيد الفطر"
     "أوائل أبريل" "300 شخص" "كبير (Major)"
     "القاعة الكبرى في فندق 5 نجوم"
     "ديكور عيد احتفالي ذهبي وأبيض، مسرح كبير، قوس مدخل"
     "إنتاج كامل: شاشة LED، صوت حفلات، تصميم إضاءة"
     "فرقة عرضة + موسيقى حية، هدايا العيد، ركن للأطفال (اختياري)، مقدم برامج محترف"
     12,
   create_two_event_slide "فعاليات الربع الثاني"
     [("11. يوم الإبداع والابتكار - 21 أبريل",
       "المكان: مركز مؤتمرات | الحضور: 200 شخص\nالديكور: مسرح رئيسي + 10 أكشاك ابتكار للأقسام\nالخدمات: متحدث رئيسي، مسابقة ابتكار، 7 جوائز، تصويت تفاعلي", 3),
      ("12. اليوم العالمي للشاي - 21 مايو",
       "المكان: مقر SERA - المناطق المشتركة | الحضور: 250 شخص\nالديكور: ديكور بثيم الشاي، 3 محطات خدمة\nالخدمات: محطات شاي عربي/إنجليزي/آسيوي، مرافقات ذواقة، عروض ثقافة الشاي", 0)]
     13,
   create_four_event_slide "فعاليات الربع الثاني"
     [("13. كسوة فرح - مايو", "المكان: مقر SERA | الحضور: 200\nنقاط جمع، تنسيق المتطوعين، لوجستيات الفرز والتوزيع"),
      ("14. مكافحة التدخين - 31 مايو", "المكان: مقر SERA | الحضور: 200\nمتحدث صحي، محطة فحص CO، مواد توعوية"),
      ("15. يوم التبرع بالدم - 14 يونيو", "المكان: مقر SERA | الحضور: 120\nشراكة الهلال الأحمر، هدايا وشهادات للمتبرعين"),
      ("16. يوم الأب - 15 يونيو", "المكان: مطعم / قاعة | الحضور: 160\nهدايا للآباء، أنشطة بناء فريق")]
     14
     (some ("17. احتفال عيد الأضحى - منتصف يونيو",
       "القاعة الكبرى في فندق 5 نجوم | 300 شخص | عرضة + موسيقى حية، وليمة، هدايا العيد، مقدم برامج")),
   create_section_divider "فعاليات الربع الثالث" "القسم الثالث" "8 فعاليات | يوليو - سبتمبر 2026" 15,
   create_event_detail_slide
     "18. صيف سيرا"
     "20 يوليو" "500 شخص" "كبير (Major)"
     "مكان ترفيهي - مساءً فقط (حرارة 45 درجة مئوية)"
     "مناطق متعددة: مسرح رئيسي، منطقة أطفال، منطقة طعام، ألعاب"
     "صوت وإضاءة خارجية بمستوى حفلات موسيقية"
     "ترفيه رئيسي، منطقة أطفال، 10 أكشاك ألعاب، مهرجان طعام، سحب، هدايا عائلية"
     16,
   create_four_event_slide "فعاليات الربع الثالث"
     [("19. شتوية سيرا - 19 أغسطس", "المكان: مكان داخلي مكيف | الحضور: 300\nثيم أرض العجائب الشتوية، مؤثرات ثلجية، برنامج ترفيهي"),
      ("20. الإسعافات الأولية - 13 سبتمبر", "المكان: مقر SERA | الحضور: 200\nورشة CPR، حقائب إسعافات، خبير مسعف، شهادات"),
      ("21. تزوّد - سبتمبر", "المكان: مركز تدريب | الحضور: 200\nمدربين خبراء (جلستين)، مواد تدريبية، شهادات"),
      ("22. الزهايمر - 21 سبتمبر", "المكان: مقر SERA | الحضور: 200\nمتحدث رعاية صحية، شرائط بنفسجية، عروض توعوية")]
     17
     none,
   create_three_event_slide "فعاليات الربع الثالث"
     [("23. وش دورنا - سبتمبر",
       "المكان: مقر SERA - قاعة اجتماعات | الحضور: 200 شخص\nالخدمات: ميسر محترف، تمارين تفاعلية، أدلة الأدوار، أنشطة فريق", 0),
      ("24. اليوم الوطني السعودي (96) - 23 سبتمبر",
       "المكان: مكان فاخر مع خيار خارجي | الحضور: 300 شخص\nالديكور: ديكور وطني أخضر فاخر، أعلام، رموز وطنية\nالخدمات: فرقة عرضة، عروض ثقافية، هدايا وطنية، إضاءة خضراء. يجب الحجز قبل 3-4 أشهر", 2),
      ("25. أسبوع البيئة - Q3",
       "المكان: مقر SERA - منطقة معارض (5 أيام) | الحضور: 250 شخص\nالخدمات: برنامج 5 أيام، متحدثون خبراء، زراعة أشجار، ورش بيئية، أنشطة خضراء", 0)]
     18,
   create_section_divider "فعاليات الربع الرابع" "القسم الرابع" "16 فعالية | أكتوبر - ديسمبر 2026" 19,
   create_three_event_slide "فعاليات الربع الرابع"
     [("26. اليوم العالمي للقهوة - 1 أكتوبر",
       "المكان: مقر SERA - المناطق المشتركة | الحضور: 250 شخص\nالخدمات: باريستا محترف، مراسم الدلة العربية، عروض ثقافة القهوة", 0),
      ("27. التوعية بسرطان الثدي - أكتوبر",
       "المكان: مقر SERA - منطقة الصحة | الحضور: 200 شخص\nالخدمات: خبير رعاية صحية، معلومات فحص، عناصر توعية وردية", 1),
      ("28. معرض الأمن السيبراني - أكتوبر",
       "المكان: مقر SERA / مركز مؤتمرات | الحضور: 250 شخص\nالخدمات: 6 عروض تفاعلية، 2 متحدثين خبراء، محاكاة تصيد، هدايا ترويجية", 0)]
     20,
   create_four_event_slide "فعاليات الربع الرابع"
     [("29. الصحة النفسية - 10 أكتوبر", "المكان: مقر SERA | الحضور: 200\nمتحدث نفسي، ورشة إدارة الضغط، منطقة استرخاء"),
      ("30. يوم الادخار - 31 أكتوبر", "المكان: مقر SERA | الحضور: 200\nخبير مالي، أدلة ادخار، مخططات ميزانية"),
      ("31. يوم الجودة - 10 نوفمبر", "المكان: فندق أعمال | الحضور: 180\n7 جوائز جودة، عروض أفضل الممارسات، متحدث خبير"),
      ("32. التطعيم ضد الإنفلونزا - نوفمبر", "المكان: مقر SERA | الحضور: 250\nطاقم طبي، لوجستيات التطعيم، هدايا للمشاركين")]
     21
     none,
   create_four_event_slide "فعاليات الربع الرابع"
     [("33. يوم السكري - 14 نوفمبر", "المكان: مقر SERA | الحضور: 200\nأخصائي غدد صماء، فحص سكر الدم، عناصر توعية زرقاء"),
      ("34. يوم الرجل - 19 نوفمبر", "المكان: قاعة فعاليات | الحضور: 200\nمسابقات فريق، هدايا تقدير"),
      ("35. يوم الطفل - 20 نوفمبر", "المكان: مكان ترفيهي عائلي | الحضور: 200\nمنشطين أطفال محترفين، محطات ألعاب، هدايا"),
      ("36. يوم التطوع - 5 ديسمبر", "المكان: موقع مجتمعي | الحضور: 80\nحافلتين نقل، قمصان متطوعين، صناديق غداء")]
     22
     none,
   create_four_event_slide "فعاليات الربع الرابع"
     [("37. مكافحة الفساد - 9 ديسمبر", "المكان: مقر SERA | الحضور: 200\nمتحدث أخلاقيات/نزاهة، توقيع تعهدات، كتيبات"),
      ("38. أنشطة التحول - Q4", "المكان: مقر SERA | الحضور: 200\nجلسات خبراء، ورش تحول، أنشطة تفكير تصميمي"),
      ("39. المكتب المثالي - Q4", "المكان: جميع مكاتب SERA | الحضور: 200\nبرنامج تقييم، لجنة تحكيم، حفل جوائز، كؤوس"),
      ("40. يوم اللغة العربية - 18 ديسمبر", "المكان: مكان ثقافي | الحضور: 200\nشاعر ضيف، ورشة خط عربي، أمسية شعرية")]
     23
     none,
   create_event_detail_slide
     "41. حفل نهاية العام"
     "أواخر ديسمبر" "300 شخص" "كبير (Major)"
     "فندق 5 نجوم - حفل فاخر"
     "مسرح فاخر، تصميم إضاءة LED، طاولات فاخرة"
     "حفل كامل: شاشة LED، صوت حفلات موسيقية، إضاءة مصممة"
     "فرقة موسيقية فاخرة + عروض، 15 جائزة سنوية، فيديو مراجعة العام، هدايا فاخرة، مقدم برامج. يجب الحجز قبل 3 أشهر"
     24,
   create_section_divider "الفعاليات الرياضية" "القسم الخامس" "3 فعاليات رياضية" 25,
   create_sports_slide,
   create_section_divider "ملخص الميزانية" "القسم السادس" "نظرة عامة على التكاليف" 27,
   create_budget_slide,
   create_thank_you_slide]

/-! ### Observers on the built shapes -/

/-- Whether a shape is a rounded rectangle, the kind of every card. -/
def isRoundedRect (sh : Shape) : Bool :=
  match sh.kind with
  | .roundedRectangle => true
  | _ => false

/-- The rounded-rectangle shapes of a slide, in order of addition.  On a
two-event or three-event slide these are exactly the event cards. -/
def roundedRects (slide : Slide) : List Shape := slide.filter isRoundedRect

/-- The fill colors of a list of shapes, in order. -/
def shapeFills (shapes : List Shape) : List (Option RGBColor) :=
  shapes.map (fun sh => sh.fill)

/-- The text of a shape, empty when the shape has no text frame. -/
def shapeText (sh : Shape) : String :=
  match sh.tf with
  | some tf => tf.para.text
  | none => ""

/-- Whether a bounding box lies within the declared page bounds. -/
def in_bounds (sh : Shape) : Bool :=
  decide (0 ≤ sh.left) && decide (0 ≤ sh.top) &&
  decide (sh.left + sh.width ≤ SLIDE_WIDTH) &&
  decide (sh.top + sh.height ≤ SLIDE_HEIGHT)

/-- Whether every shape of a slide lies within the page bounds. -/
def slide_in_bounds (slide : Slide) : Bool := slide.all in_bounds

/-- Whether every shape of every slide lies within the page bounds. -/
def deck_in_bounds (deck : List Slide) : Bool := deck.all slide_in_bounds

/-- Whether a shape is the page-number textbox placed by add_bottom_border,
recognized by its kind and its fixed geometry; no other textbox in the deck
occupies this box. -/
def is_page_box (sh : Shape) : Bool :=
  (match sh.kind with | .textbox => true | _ => false) &&
  decide (sh.left = Inches 0.8) && decide (sh.top = SLIDE_HEIGHT - Inches 0.5) &&
  decide (sh.width = Inches 0.6) && decide (sh.height = Inches 0.4)

/-- The page-number labels on a slide, in order of addition. -/
def page_labels (slide : Slide) : List String :=
  (slide.filter is_page_box).map shapeText

/-- Whether two bounding boxes overlap (intersect with positive area). -/
def rects_overlap (a b : Shape) : Bool :=
  decide (a.left < b.left + b.width) && decide (b.left < a.left + a.width) &&
  decide (a.top < b.top + b.height) && decide (b.top < a.top + a.height)

/-- A placeholder shape used as the default of positional lookups. -/
def dummy_shape : Shape := solidShape .rectangle 0 0 0 0 WHITE

/-- Whether a shape is a card of the four-event grid: a rounded rectangle of
the grid card width 5.6 (the only other rounded rectangle ever on such a
slide, the optional extra detail box, has width 11.5). -/
def is_four_card (sh : Shape) : Bool :=
  isRoundedRect sh && decide (sh.width = Inches 5.6)

/-- The cards of the four-event grid on a slide. -/
def four_cards (slide : Slide) : List Shape := slide.filter is_four_card

/-- Whether a shape is an info card of a 3-column overview or budget grid:
a rounded rectangle of the grid card width 3.5. -/
def is_info_card (sh : Shape) : Bool :=
  isRoundedRect sh && decide (sh.width = Inches 3.5)

/-- The info cards of a 3-column grid slide. -/
def info_cards (slide : Slide) : List Shape := slide.filter is_info_card

/-! ### Helper lemmas about the event-card loops -/

theorem roundedRects_append (s t : List Shape) :
    roundedRects (s ++ t) = roundedRects s ++ roundedRects t := by
  simp [roundedRects, List.filter_append]

theorem roundedRects_add_event_card (slide : Slide) (l t w h : ℚ) (a b : String)
    (c : RGBColor) :
    roundedRects (add_event_card slide l t w h a b c) =
      roundedRects slide ++ [solidShape .roundedRectangle l t w h c] := by
  simp [add_event_card, roundedRects, List.filter_append, List.filter, isRoundedRect,
    solidShape, new_textbox]

theorem two_event_loop_fills (events : List (String × String × ℕ)) :
    ∀ (slide : Slide) (y : ℚ),
      shapeFills (roundedRects (two_event_loop slide y events)) =
        shapeFills (roundedRects slide) ++
          events.map
            (fun e => some (two_event_colors.getD (e.2.2 % two_event_colors.length) DARK_BLUE)) := by
  induction events with
  | nil => intro slide y; simp [two_event_loop]
  | cons e rest ih =>
    intro slide y
    obtain ⟨t, c, ci⟩ := e
    rw [two_event_loop, ih, roundedRects_add_event_card]
    simp [shapeFills, solidShape]

theorem three_event_loop_fills (events : List (String × String × ℕ)) :
    ∀ (slide : Slide) (y : ℚ),
      shapeFills (roundedRects (three_event_loop slide y events)) =
        shapeFills (roundedRects slide) ++
          events.map
            (fun e => some (three_event_colors.getD (e.2.2 % three_event_colors.length) DARK_BLUE)) := by
  induction events with
  | nil => intro slide y; simp [three_event_loop]
  | cons e rest ih =>
    intro slide y
    obtain ⟨t, c, ci⟩ := e
    rw [three_event_loop, ih, roundedRects_add_event_card]
    simp [shapeFills, solidShape]

theorem roundedRects_two_event_header (page_title : String) (page_num : ℕ) :
    roundedRects
      (add_bottom_border (add_top_border []) page_num ++
        [set_rtl_arabic_text (new_textbox (Inches 0.8) (Inches 0.6) (Inches 11.5) (Inches 0.7))
          page_title 32 true DARK_BLUE "right"]) = [] := by
  simp [add_top_border, add_bottom_border, set_rtl_arabic_text, new_textbox, emptyParagraph,
    solidShape, roundedRects, List.filter_append, List.filter, isRoundedRect]

/-- The card rectangles placed by the four-event loop starting at index i,
one per event in order. -/
def four_rect_list (i : ℕ) : List (String × String) → List Shape
  | [] => []
  | _ :: rest => four_event_card i :: four_rect_list (i + 1) rest

theorem detail_width_ne_four_card_width : (Inches 11.5 = Inches 5.6) = False := by
  norm_num [Inches]

theorem four_cards_loop (events : List (String × String)) :
    ∀ (slide : Slide) (i : ℕ),
      four_cards (four_event_loop slide i events) =
        four_cards slide ++ four_rect_list i events := by
  induction events with
  | nil => intro slide i; simp [four_event_loop, four_rect_list]
  | cons e rest ih =>
    intro slide i
    obtain ⟨t, c⟩ := e
    rw [four_event_loop, ih]
    simp [four_rect_list, four_cards, List.filter_append, List.filter, is_four_card,
      isRoundedRect, four_event_card, solidShape, new_textbox]

theorem four_rect_list_length (events : List (String × String)) :
    ∀ i : ℕ, (four_rect_list i events).length = events.length := by
  induction events with
  | nil => intro i; simp [four_rect_list]
  | cons e rest ih => intro i; simp [four_rect_list, ih]

theorem four_rect_list_get (events : List (String × String)) :
    ∀ (i j : ℕ), j < events.length →
      (four_rect_list i events).get? j = some (four_event_card (i + j)) := by
  induction events with
  | nil => intro i j h; simp at h
  | cons e rest ih =>
    intro i j h
    match j with
    | 0 => simp [four_rect_list]
    | j + 1 =>
      have harith : i + 1 + j = i + (j + 1) := by omega
      have := ih (i + 1) j (by simpa using Nat.lt_of_succ_lt_succ h)
      rw [harith] at this
      simpa [four_rect_list, List.get?_cons_succ] using this

theorem four_cards_header (page_title : String) (page_num : ℕ) :
    four_cards
      (add_bottom_border (add_top_border []) page_num ++
        [set_rtl_arabic_text (new_textbox (Inches 0.8) (Inches 0.6) (Inches 11.5) (Inches 0.7))
          page_title 32 true DARK_BLUE "right"]) = [] := by
  simp [add_top_border, add_bottom_border, set_rtl_arabic_text, new_textbox, emptyParagraph,
    solidShape, four_cards, List.filter_append, List.filter, is_four_card, isRoundedRect]

theorem four_cards_add_detail_box (slide : Slide) (t : ℚ) (a b : String) :
    four_cards (add_detail_box slide (Inches 0.8) t (Inches 11.5) (Inches 0.8) a b
        LIGHT_GRAY DARK_BLUE) = four_cards slide := by
  simp [add_detail_box, four_cards, List.filter_append, List.filter, is_four_card,
    isRoundedRect, solidShape, new_textbox, detail_width_ne_four_card_width]

/-- The four-event grid of any call: exactly the cards of the truncated list. -/
theorem four_cards_create (page_title : String) (events : List (String × String))
    (page_num : ℕ) (extra_detail : Option (String × String)) :
    four_cards (create_four_event_slide page_title events page_num extra_detail) =
      four_rect_list 0 (events.take 4) := by
  unfold create_four_event_slide
  cases extra_detail with
  | none => rw [four_cards_loop, four_cards_header]; simp
  | some extra => rw [four_cards_add_detail_box, four_cards_loop, four_cards_header]; simp

theorem four_event_cards_disjoint :
    ∀ i < 4, ∀ j < 4, i ≠ j →
      rects_overlap (four_event_card i) (four_event_card j) = false := by
  with_unfolding_all decide

/-- Bool check that the card at position i of the list sits at column i mod
cols and row i div cols of the grid anchored at (start_x, start_y) with the
given strides. -/
def grid_positions_ok (cards : List Shape) (cols : ℕ)
    (start_x start_y stride_x stride_y : ℚ) : Bool :=
  (List.range cards.length).all fun i =>
    decide ((cards.getD i dummy_shape).left = start_x + ((i % cols : ℕ) : ℚ) * stride_x) &&
    decide ((cards.getD i dummy_shape).top = start_y + ((i / cols : ℕ) : ℚ) * stride_y)

/-- Bool check that no two distinct cards of the list have overlapping
bounding boxes. -/
def pairwise_no_overlap (cards : List Shape) : Bool :=
  (List.range cards.length).all fun i =>
    (List.range cards.length).all fun j =>
      decide (i = j) || !rects_overlap (cards.getD i dummy_shape) (cards.getD j dummy_shape)

/-! ### The claims -/

/-- C2: every shape and textbox of every slide built by main lies within the
declared page bounds: 0 ≤ left, 0 ≤ top, left + width ≤ 13.333 inches and
top + height ≤ 7.5 inches. -/
theorem deck_within_page_bounds : deck_in_bounds main_deck = true := by
  with_unfolding_all rfl

/-- C4: the full generation run of main produces exactly 29 slides. -/
theorem deck_has_29_slides : main_deck.length = 29 := by
  with_unfolding_all rfl

/-- C7: the generator takes no input and is deterministic; any two decks
built by the fixed main sequence are structurally identical, slide for slide
and shape for shape. -/
theorem generator_deterministic (d1 d2 : List Slide)
    (h1 : d1 = main_deck) (h2 : d2 = main_deck) : d1 = d2 :=
  h1.trans h2.symm

theorem generator_deterministic_witness : main_deck = main_deck :=
  generator_deterministic main_deck main_deck rfl rfl

/-- C9: in the fixed call sequence of main the page numbers handed to
add_bottom_border are the consecutive values 2 through 28 on slides 2
through 28 in slide order (and slides 1 and 29 carry no page label), so
they are strictly increasing across the deck. -/
theorem page_numbers_consecutive :
    main_deck.map page_labels =
      [[]] ++ (List.range' 2 27).map (fun k => [format02 k]) ++ [[]] := by
  with_unfolding_all rfl

/-- C3: each grid assembler places exactly min(N, capacity) items, the item
at index i at column i mod columns and row i div columns, and no two placed
cards overlap: the four-event grid (2 columns, capacity 4) for every input
list, and the overview and categories 3-column grids for their fixed
six-item lists. -/
theorem grid_placement :
    (∀ (page_title : String) (events : List (String × String)) (page_num : ℕ)
        (extra_detail : Option (String × String)),
      (four_cards (create_four_event_slide page_title events page_num extra_detail)).length =
          min events.length 4
      ∧ (∀ i, i < min events.length 4 →
          (four_cards (create_four_event_slide page_title events page_num extra_detail)).get? i =
            some (four_event_card i))
      ∧ (∀ i j, i < min events.length 4 → j < min events.length 4 → i ≠ j →
          rects_overlap
            ((four_cards (create_four_event_slide page_title events page_num extra_detail)).getD
              i dummy_shape)
            ((four_cards (create_four_event_slide page_title events page_num extra_detail)).getD
              j dummy_shape) = false))
    ∧ ((info_cards create_overview_slide).length = min overview_cards.length 6
      ∧ grid_positions_ok (info_cards create_overview_slide) 3 (Inches 0.8) (Inches 1.5)
          (Inches 3.5 + Inches 0.3) (Inches 1.1 + Inches 0.2) = true
      ∧ pairwise_no_overlap (info_cards create_overview_slide) = true)
    ∧ ((roundedRects create_categories_slide).length = min categories.length 6
      ∧ grid_positions_ok (roundedRects create_categories_slide) 3 (Inches 0.8) (Inches 1.5)
          (Inches 3.7 + Inches 0.2) (Inches 1.5 + Inches 0.2) = true
      ∧ pairwise_no_overlap (roundedRects create_categories_slide) = true) := by
  refine ⟨?_, ⟨?_, ?_, ?_⟩, ⟨?_, ?_, ?_⟩⟩
  · intro page_title events page_num extra_detail
    have hc := four_cards_create page_title events page_num extra_detail
    have htake : (events.take 4).length = min events.length 4 := by
      rw [List.length_take, Nat.min_comm]
    have hget : ∀ i, i < min events.length 4 →
        (four_cards (create_four_event_slide page_title events page_num extra_detail)).get? i =
          some (four_event_card i) := by
      intro i hi
      rw [hc, four_rect_list_get _ 0 i (htake ▸ hi)]
      simp
    refine ⟨by rw [hc, four_rect_list_length, htake], hget, ?_⟩
    intro i j hi hj hne
    have hgi : (four_cards (create_four_event_slide page_title events page_num extra_detail)).getD
        i dummy_shape = four_event_card i := by
      rw [List.getD_eq_get?, hget i hi]; rfl
    have hgj : (four_cards (create_four_event_slide page_title events page_num extra_detail)).getD
        j dummy_shape = four_event_card j := by
      rw [List.getD_eq_get?, hget j hj]; rfl
    rw [hgi, hgj]
    exact four_event_cards_disjoint i (Nat.lt_of_lt_of_le hi (Nat.min_le_right _ _))
      j (Nat.lt_of_lt_of_le hj (Nat.min_le_right _ _)) hne
  · with_unfolding_all rfl
  · with_unfolding_all rfl
  · with_unfolding_all rfl
  · with_unfolding_all rfl
  · with_unfolding_all rfl
  · with_unfolding_all rfl

theorem grid_placement_witness :
    (four_cards (create_four_event_slide "T"
        [("a", "b"), ("c", "d"), ("e", "f"), ("g", "h"), ("i", "j")] 9 none)).length =
      min 5 4
    ∧ (four_cards (create_four_event_slide "T"
        [("a", "b"), ("c", "d"), ("e", "f"), ("g", "h"), ("i", "j")] 9 none)).get? 1 =
      some (four_event_card 1)
    ∧ rects_overlap
        ((four_cards (create_four_event_slide "T"
          [("a", "b"), ("c", "d"), ("e", "f"), ("g", "h"), ("i", "j")] 9 none)).getD 0 dummy_shape)
        ((four_cards (create_four_event_slide "T"
          [("a", "b"), ("c", "d"), ("e", "f"), ("g", "h"), ("i", "j")] 9 none)).getD 3 dummy_shape) =
      false := by
  obtain ⟨h1, h2, h3⟩ :=
    grid_placement.1 "T" [("a", "b"), ("c", "d"), ("e", "f"), ("g", "h"), ("i", "j")] 9 none
  exact ⟨h1, h2 1 (by decide), h3 0 3 (by decide) (by decide) (by decide)⟩

/-- C1, counterexample: on slide 8 of the deck built by main (a two-event
slide whose first tuple carries color index 2), the card fills are not the
palette entries at the iteration indices 0 and 1, so the fill is not
determined by the iteration position. -/
theorem color_not_from_iteration_index :
    shapeFills (roundedRects (main_deck.getD 7 [])) ≠
      [some (two_event_colors.getD (0 % two_event_colors.length) DARK_BLUE),
       some (two_event_colors.getD (1 % two_event_colors.length) DARK_BLUE)] := by
  with_unfolding_all decide

/-- Shared helper: the card fills of any two-event slide, in order. -/
theorem two_event_slide_fills (page_title : String)
    (events : List (String × String × ℕ)) (page_num : ℕ) :
    shapeFills (roundedRects (create_two_event_slide page_title events page_num)) =
      events.map
        (fun e => some (two_event_colors.getD (e.2.2 % two_event_colors.length) DARK_BLUE)) := by
  unfold create_two_event_slide
  rw [two_event_loop_fills, roundedRects_two_event_header]
  simp [shapeFills]

/-- Shared helper: the card fills of any three-event slide, in order. -/
theorem three_event_slide_fills (page_title : String)
    (events : List (String × String × ℕ)) (page_num : ℕ) :
    shapeFills (roundedRects (create_three_event_slide page_title events page_num)) =
      events.map
        (fun e => some (three_event_colors.getD (e.2.2 % three_event_colors.length) DARK_BLUE)) := by
  unfold create_three_event_slide
  rw [three_event_loop_fills, roundedRects_two_event_header]
  simp [shapeFills]

/-- C1, amended: in both color-cycling assemblers the fill of the card built
for a tuple is palette[color_idx mod len(palette)] where color_idx is the
color index carried by that tuple — not the iteration index; the fills are
still deterministic for a given input ordering. -/
theorem color_cycle_follows_tuple_index (page_title : String)
    (events : List (String × String × ℕ)) (page_num : ℕ) :
    shapeFills (roundedRects (create_two_event_slide page_title events page_num)) =
      events.map
        (fun e => some (two_event_colors.getD (e.2.2 % two_event_colors.length) DARK_BLUE))
    ∧ shapeFills (roundedRects (create_three_event_slide page_title events page_num)) =
      events.map
        (fun e => some (three_event_colors.getD (e.2.2 % three_event_colors.length) DARK_BLUE)) :=
  ⟨two_event_slide_fills page_title events page_num,
   three_event_slide_fills page_title events page_num⟩

/-- C10: create_four_event_slide truncates to the first four events, while
create_two_event_slide and create_three_event_slide apply no capacity limit
and add one event card per tuple, whatever the length of the list. -/
theorem capacity_truncation (page_title : String) (events : List (String × String × ℕ))
    (events4 : List (String × String)) (page_num : ℕ)
    (extra_detail : Option (String × String)) :
    (roundedRects (create_two_event_slide page_title events page_num)).length = events.length
    ∧ (roundedRects (create_three_event_slide page_title events page_num)).length = events.length
    ∧ (four_cards (create_four_event_slide page_title events4 page_num extra_detail)).length =
        min events4.length 4 := by
  refine ⟨?_, ?_, ?_⟩
  · have := congrArg List.length (two_event_slide_fills page_title events page_num)
    simpa [shapeFills] using this
  · have := congrArg List.length (three_event_slide_fills page_title events page_num)
    simpa [shapeFills] using this
  · rw [four_cards_create, four_rect_list_length, List.length_take, Nat.min_comm]

/-- The event-card groups of a slide: each rounded rectangle together with
the two textboxes added right after it (the title box and the content box of
add_event_card); shapes before a rounded rectangle are skipped. -/
def card_groups : List Shape → List (Shape × Shape × Shape)
  | a :: b :: c :: rest =>
    match a.kind with
    | .roundedRectangle => (a, b, c) :: card_groups rest
    | _ => card_groups (b :: c :: rest)
  | _ => []

/-- A placeholder card group. -/
def dummy_group : Shape × Shape × Shape := (dummy_shape, dummy_shape, dummy_shape)

/-- C5: a two-event slide built from exactly two (title, body, color index)
tuples carries exactly two event-card rounded rectangles; the first card is
filled with the palette entry at the first color index modulo the palette
length and its title and body textboxes carry the first tuple strings, and
likewise for the second card. -/
theorem two_event_slide_two_cards (page_title t1 b1 : String) (c1 : ℕ)
    (t2 b2 : String) (c2 : ℕ) (page_num : ℕ) :
    (roundedRects (create_two_event_slide page_title [(t1, b1, c1), (t2, b2, c2)] page_num)).length = 2
    ∧ (card_groups (create_two_event_slide page_title [(t1, b1, c1), (t2, b2, c2)] page_num)).length = 2
    ∧ ((card_groups (create_two_event_slide page_title [(t1, b1, c1), (t2, b2, c2)] page_num)).getD
        0 dummy_group).1.fill =
      some (two_event_colors.getD (c1 % two_event_colors.length) DARK_BLUE)
    ∧ shapeText ((card_groups (create_two_event_slide page_title [(t1, b1, c1), (t2, b2, c2)] page_num)).getD
        0 dummy_group).2.1 = t1
    ∧ shapeText ((card_groups (create_two_event_slide page_title [(t1, b1, c1), (t2, b2, c2)] page_num)).getD
        0 dummy_group).2.2 = b1
    ∧ ((card_groups (create_two_event_slide page_title [(t1, b1, c1), (t2, b2, c2)] page_num)).getD
        1 dummy_group).1.fill =
      some (two_event_colors.getD (c2 % two_event_colors.length) DARK_BLUE)
    ∧ shapeText ((card_groups (create_two_event_slide page_title [(t1, b1, c1), (t2, b2, c2)] page_num)).getD
        1 dummy_group).2.1 = t2
    ∧ shapeText ((card_groups (create_two_event_slide page_title [(t1, b1, c1), (t2, b2, c2)] page_num)).getD
        1 dummy_group).2.2 = b2 := by
  refine ⟨?_, ?_, ?_, ?_, ?_, ?_, ?_, ?_⟩ <;> with_unfolding_all rfl

/-- Python rendering of a natural number below 100 under the 02d format
spec: exactly the two decimal digits, tens then units, so padded with a
leading zero below ten. -/
theorem format02_two_digits : ∀ page_num : ℕ, page_num < 100 →
    format02 page_num =
      String.mk [Nat.digitChar (page_num / 10), Nat.digitChar (page_num % 10)] := by
  decide

/-- C6: every call of add_bottom_border with page number p (p below 100, as
in every call of the script) appends exactly one page label to the slide,
and that label is the two-digit zero-padded decimal form of p. -/
theorem page_label_zero_padded (slide : Slide) (page_num : ℕ) (h : page_num < 100) :
    page_labels (add_bottom_border slide page_num) =
      page_labels slide ++
        [String.mk [Nat.digitChar (page_num / 10), Nat.digitChar (page_num % 10)]] := by
  unfold add_bottom_border page_labels
  rw [List.filter_append]
  simp only [List.map_append]
  congr 1
  simp [is_page_box, List.filter, solidShape, new_textbox, shapeText,
    format02_two_digits page_num h]

theorem page_label_zero_padded_witness :
    7 < 100 ∧
    page_labels (add_bottom_border [] 7) =
      page_labels [] ++ [String.mk [Nat.digitChar (7 / 10), Nat.digitChar (7 % 10)]] :=
  ⟨by decide, page_label_zero_padded [] 7 (by decide)⟩

/-- C8: each layout primitive only appends its own shapes to the slide it is
given — the shapes already present stay in place, unchanged, as a prefix of
the result (and no other slide is touched, since no primitive ever receives
the deck); set_rtl_arabic_text only rewrites the text frame of the shape it
is handed, leaving kind, geometry and fill unchanged. -/
theorem primitives_append_only :
    (∀ slide : Slide, add_top_border slide = slide ++ add_top_border [])
    ∧ (∀ (slide : Slide) (page_num : ℕ),
        add_bottom_border slide page_num = slide ++ add_bottom_border [] page_num)
    ∧ (∀ (slide : Slide) (l t w h : ℚ) (title value : String) (bg_color : RGBColor),
        add_info_card slide l t w h title value bg_color =
          slide ++ add_info_card [] l t w h title value bg_color)
    ∧ (∀ (slide : Slide) (l t w h : ℚ) (title content : String) (bg_color border_color : RGBColor),
        add_detail_box slide l t w h title content bg_color border_color =
          slide ++ add_detail_box [] l t w h title content bg_color border_color)
    ∧ (∀ (slide : Slide) (l t w h : ℚ) (title content : String) (bg_color : RGBColor),
        add_event_card slide l t w h title content bg_color =
          slide ++ add_event_card [] l t w h title content bg_color)
    ∧ (∀ (shape : Shape) (text : String) (font_size : ℚ) (bold : Bool)
        (color : RGBColor) (align : String),
        (set_rtl_arabic_text shape text font_size bold color align).kind = shape.kind
        ∧ (set_rtl_arabic_text shape text font_size bold color align).left = shape.left
        ∧ (set_rtl_arabic_text shape text font_size bold color align).top = shape.top
        ∧ (set_rtl_arabic_text shape text font_size bold color align).width = shape.width
        ∧ (set_rtl_arabic_text shape text font_size bold color align).height = shape.height
        ∧ (set_rtl_arabic_text shape text font_size bold color align).fill = shape.fill) := by
  refine ⟨?_, ?_, ?_, ?_, ?_, ?_⟩
  · intro slide; simp [add_top_border]
  · intro slide page_num; simp [add_bottom_border]
  · intro slide l t w h title value bg_color; simp [add_info_card]
  · intro slide l t w h title content bg_color border_color; simp [add_detail_box]
  · intro slide l t w h title content bg_color; simp [add_event_card]
  · intro shape text font_size bold color align
    exact ⟨rfl, rfl, rfl, rfl, rfl, rfl⟩

end Ppt
